import Mathlib

/-!
# redis_util

A shallow embedding of `redis_util/redis_util.go`: a package-level variable
holding a `*RedisClient`, the function `Initialize` that fills it and spawns a
goroutine waiting for an interrupt, the accessor `NewRedisClient`, and the five
methods `Ping`, `Set`, `Get`, `Invalidate`, `Close`, each of which forwards to
the go-redis client and formats the error it gets back.

The go-redis library is not part of the package. It enters the embedding as a
parameter `Library σ`: one state-passing function per library entry point the
package calls. What the package does is then a function of what the library
answers. Standard output, the trace of library calls, the objects allocated
by the package and the goroutines it spawned are explicit fields of `State`.
-/

namespace RedisUtil

/-! ## Values -/

/-- The fields of `redis.Options` that `Initialize` fills in. -/
structure Options where
  Addr : String
  Password : String
  DB : Int
deriving DecidableEq, Repr

/-- Go `error` values, by what code can tell apart about them: the sentinel
`redis.Nil` the library returns for a missing key, any other error value made
outside this package (network, server, closed client), and the value
`fmt.Errorf` builds from a format without `%w`, an `*errors.errorString` that
carries its text and nothing else. -/
inductive GoError where
  | redisNil
  | external (msg : String)
  | errorString (msg : String)
deriving DecidableEq, Repr

/-- The method `Error()`, which is what the verb `%v` and `fmt.Println` print of an
error. The text of `redis.Nil` is the library's. -/
def GoError.Error : GoError → String
  | .redisNil => "redis: nil"
  | .external msg => msg
  | .errorString msg => msg

/-- The kind of an error value: which of the three sorts of `GoError` it is. -/
inductive ErrorKind where
  | redisNilSentinel
  | externalError
  | errorsErrorString
deriving DecidableEq, Repr

/-- The kind of an error value. -/
def GoError.kind : GoError → ErrorKind
  | .redisNil => .redisNilSentinel
  | .external _ => .externalError
  | .errorString _ => .errorsErrorString

/-- The test `err == redis.Nil` (also `errors.Is(err, redis.Nil)`: an
`*errors.errorString` unwraps to nothing). -/
def GoError.isRedisNil (e : GoError) : Bool :=
  e == GoError.redisNil

/-! ## The library boundary -/

/-- The entry points of go-redis the package calls, over a library state `σ`
(connections and the server behind them). A `*redis.Client` is a `Nat`.
`Ping` and `Get` are `Cmd.Result()`, a value and an error; `Set` and `Del` are
`Cmd.Err()`; a `nil` error is `none`. A `time.Duration` is an `Int`. -/
structure Library (σ : Type) where
  NewClient : Options → σ → Nat × σ
  Ping : Nat → σ → (String × Option GoError) × σ
  Set : Nat → String → String → Int → σ → Option GoError × σ
  Get : Nat → String → σ → (String × Option GoError) × σ
  Del : Nat → String → σ → Option GoError × σ
  Close : Nat → σ → Option GoError × σ

/-- One invocation of a library entry point, with its arguments. -/
inductive Call where
  | NewClient (opts : Options)
  | Ping (h : Nat)
  | Set (h : Nat) (key value : String) (expiration : Int)
  | Get (h : Nat) (key : String)
  | Del (h : Nat) (key : String)
  | Close (h : Nat)
deriving DecidableEq, Repr

/-- Whether a logged call is a `Close`. -/
def Call.isClose : Call → Bool
  | .Close _ => true
  | _ => false

/-! ## The package -/

/-- The struct `RedisClient`: one field, the `*redis.Client`. -/
structure RedisClient where
  client : Nat
deriving DecidableEq, Repr

/-- Everything the package reads or writes.
* `lib`: the state of the library;
* `calls`: the library calls made so far, oldest first;
* `stdout`: the lines printed so far by `fmt.Println`;
* `heap`: the `RedisClient` structs allocated so far, a `*RedisClient` being an
  index into it;
* `redisClient`: the package variable `var redisClient *RedisClient`, `none`
  for `nil`;
* `listeners`: the goroutines spawned by `Initialize` that are still blocked on
  `<-interrupt`, each on its own channel registered with `signal.Notify`;
* `panicked`: set when a goroutine dereferences a `nil` `*RedisClient`. -/
structure State (σ : Type) where
  lib : σ
  calls : List Call
  stdout : List String
  heap : List RedisClient
  redisClient : Option Nat
  listeners : Nat
  panicked : Bool

/-- The state of a process that has not called into the package yet. -/
def State.init {σ : Type} (lib : σ) : State σ :=
  { lib := lib, calls := [], stdout := [], heap := [], redisClient := none,
    listeners := 0, panicked := false }

/-- The call `redis.NewClient(opts)`: the library runs, the call is logged. -/
def callNewClient {σ : Type} (L : Library σ) (opts : Options) (s : State σ) : Nat × State σ :=
  ((L.NewClient opts s.lib).1,
    { s with lib := (L.NewClient opts s.lib).2, calls := s.calls ++ [Call.NewClient opts] })

/-- The call `client.Ping(ctx).Result()`. -/
def callPing {σ : Type} (L : Library σ) (h : Nat) (s : State σ) :
    (String × Option GoError) × State σ :=
  ((L.Ping h s.lib).1, { s with lib := (L.Ping h s.lib).2, calls := s.calls ++ [Call.Ping h] })

/-- The call `client.Set(ctx, key, value, expiration).Err()`. -/
def callSet {σ : Type} (L : Library σ) (h : Nat) (key value : String) (expiration : Int)
    (s : State σ) : Option GoError × State σ :=
  ((L.Set h key value expiration s.lib).1,
    { s with lib := (L.Set h key value expiration s.lib).2,
             calls := s.calls ++ [Call.Set h key value expiration] })

/-- The call `client.Get(ctx, key).Result()`. -/
def callGet {σ : Type} (L : Library σ) (h : Nat) (key : String) (s : State σ) :
    (String × Option GoError) × State σ :=
  ((L.Get h key s.lib).1,
    { s with lib := (L.Get h key s.lib).2, calls := s.calls ++ [Call.Get h key] })

/-- The call `client.Del(ctx, key).Err()`. -/
def callDel {σ : Type} (L : Library σ) (h : Nat) (key : String) (s : State σ) :
    Option GoError × State σ :=
  ((L.Del h key s.lib).1,
    { s with lib := (L.Del h key s.lib).2, calls := s.calls ++ [Call.Del h key] })

/-- The call `client.Close()`. -/
def callClose {σ : Type} (L : Library σ) (h : Nat) (s : State σ) : Option GoError × State σ :=
  ((L.Close h s.lib).1,
    { s with lib := (L.Close h s.lib).2, calls := s.calls ++ [Call.Close h] })

/-- The statement `fmt.Println(a, b)`: one line, the operands separated by a
space. -/
def Println {σ : Type} (a b : String) (s : State σ) : State σ :=
  { s with stdout := s.stdout ++ [a ++ " " ++ b] }

/-- The method `Ping`. -/
def RedisClient.Ping {σ : Type} (L : Library σ) (rc : RedisClient) (s : State σ) :
    Option GoError × State σ :=
  match callPing L rc.client s with
  | ((_, some err), s1) =>
    (some (GoError.errorString ("failed to ping Redis server: " ++ err.Error)), s1)
  | ((pong, none), s1) => (none, Println "Connected to Redis:" pong s1)

/-- The method `Set`. -/
def RedisClient.Set {σ : Type} (L : Library σ) (rc : RedisClient) (key value : String)
    (expiration : Int) (s : State σ) : Option GoError × State σ :=
  match callSet L rc.client key value expiration s with
  | (some err, s1) =>
    (some (GoError.errorString ("failed to set key '" ++ key ++ "': " ++ err.Error)), s1)
  | (none, s1) => (none, s1)

/-- The method `Get`. -/
def RedisClient.Get {σ : Type} (L : Library σ) (rc : RedisClient) (key : String)
    (s : State σ) : (String × Option GoError) × State σ :=
  match callGet L rc.client key s with
  | ((_, some err), s1) =>
    (("", some (GoError.errorString ("failed to get key '" ++ key ++ "': " ++ err.Error))), s1)
  | ((val, none), s1) => ((val, none), s1)

/-- The method `Invalidate`. -/
def RedisClient.Invalidate {σ : Type} (L : Library σ) (rc : RedisClient) (key : String)
    (s : State σ) : Option GoError × State σ :=
  match callDel L rc.client key s with
  | (some err, s1) =>
    (some (GoError.errorString ("failed to invalidate key '" ++ key ++ "': " ++ err.Error)), s1)
  | (none, s1) => (none, s1)

/-- The method `Close`. -/
def RedisClient.Close {σ : Type} (L : Library σ) (rc : RedisClient) (s : State σ) :
    Option GoError × State σ :=
  match callClose L rc.client s with
  | (some err, s1) =>
    (some (GoError.errorString ("failed to close Redis connection: " ++ err.Error)), s1)
  | (none, s1) => (none, s1)

/-- The struct a `*RedisClient` points to, `none` for `nil` (or a pointer that
was never allocated). -/
def State.deref {σ : Type} (s : State σ) (p : Option Nat) : Option RedisClient :=
  match p with
  | none => none
  | some i => s.heap.get? i

/-- The function `Initialize`: a new library client from the three arguments, a
newly allocated `RedisClient` holding it stored in the package variable, and
one more goroutine blocked on a channel of its own that `signal.Notify`
feeds. -/
def Initialize {σ : Type} (L : Library σ) (addr password : String) (db : Int) (s : State σ) :
    State σ :=
  match callNewClient L { Addr := addr, Password := password, DB := db } s with
  | (rdb, s1) =>
    { s1 with heap := s1.heap ++ [{ client := rdb }],
              redisClient := some s1.heap.length,
              listeners := s1.listeners + 1 }

/-- The function `NewRedisClient`: the value of the package variable. -/
def NewRedisClient {σ : Type} (s : State σ) : Option Nat × State σ :=
  (s.redisClient, s)

/-- The body of the goroutine after `<-interrupt` has returned: `Close` on
whatever the package variable holds at that moment, and a printed line when
that fails. -/
def shutdownListener {σ : Type} (L : Library σ) (s : State σ) : State σ :=
  match s.deref s.redisClient with
  | none => { s with panicked := true }
  | some rc =>
    match rc.Close L s with
    | (some err, s1) => Println "Error closing Redis connection:" err.Error s1
    | (none, s1) => s1

/-- Run `n` woken goroutines one after the other. -/
def runListeners {σ : Type} (L : Library σ) : Nat → State σ → State σ
  | 0, s => s
  | n + 1, s => runListeners L n (shutdownListener L s)

/-- An interrupt or termination signal arrives: every channel registered with
`signal.Notify` gets it, so every goroutine still blocked on `<-interrupt`
wakes up and runs to its end. -/
def deliverSignal {σ : Type} (L : Library σ) (s : State σ) : State σ :=
  runListeners L s.listeners { s with listeners := 0 }

/-- A call a client of the package makes to its two package-level functions. -/
inductive Step where
  | Initialize (addr password : String) (db : Int)
  | NewRedisClient
deriving DecidableEq, Repr

/-- Whether a step is a call of `Initialize`. -/
def Step.isInitialize : Step → Bool
  | .Initialize _ _ _ => true
  | .NewRedisClient => false

/-- One step: the new state, and what `NewRedisClient` returned when the
step is one. -/
def step {σ : Type} (L : Library σ) (st : Step) (s : State σ) : List (Option Nat) × State σ :=
  match st with
  | .Initialize addr password db => ([], Initialize L addr password db s)
  | .NewRedisClient => ([(NewRedisClient s).1], (NewRedisClient s).2)

/-- A sequence of steps: the values the calls of `NewRedisClient` returned, in
order, and the final state. -/
def exec {σ : Type} (L : Library σ) : List Step → State σ → List (Option Nat) × State σ
  | [], s => ([], s)
  | st :: rest, s =>
    ((step L st s).1 ++ (exec L rest (step L st s).2).1, (exec L rest (step L st s).2).2)

/-- The state a process is in after a sequence of steps, the library starting
in `lib0`. -/
def reach {σ : Type} (L : Library σ) (lib0 : σ) (steps : List Step) : State σ :=
  (exec L steps (State.init lib0)).2

/-- A call of one of the four methods a client makes on a `RedisClient`. -/
inductive Op where
  | Ping
  | Set (key value : String) (expiration : Int)
  | Get (key : String)
  | Invalidate (key : String)
deriving DecidableEq, Repr

/-- One method call: the error it returned and the new state. -/
def RedisClient.run {σ : Type} (L : Library σ) (rc : RedisClient) (op : Op) (s : State σ) :
    Option GoError × State σ :=
  match op with
  | .Ping => rc.Ping L s
  | .Set key value expiration => rc.Set L key value expiration s
  | .Get key => ((rc.Get L key s).1.2, (rc.Get L key s).2)
  | .Invalidate key => rc.Invalidate L key s

/-- A sequence of method calls: the errors returned, in order, and the final
state. -/
def RedisClient.runAll {σ : Type} (L : Library σ) (rc : RedisClient) :
    List Op → State σ → List (Option GoError) × State σ
  | [], s => ([], s)
  | op :: rest, s =>
    ((rc.run L op s).1 :: (rc.runAll L rest (rc.run L op s).2).1,
      (rc.runAll L rest (rc.run L op s).2).2)

/-! ## What the package assumes of the library

Properties of a `Library` that the package relies on and cannot establish by
itself. `usable h s` reads: the client `h` is open and its server answers. -/

/-- A write followed by a read of the same key through a usable client
succeeds and reads the value written. -/
def HonoursSetGet {σ : Type} (L : Library σ) (usable : Nat → σ → Prop) : Prop :=
  ∀ (h : Nat) (key value : String) (expiration : Int) (s : σ),
    usable h s → 0 ≤ expiration →
      (L.Set h key value expiration s).1 = none ∧
      (L.Get h key (L.Set h key value expiration s).2).1 = (value, none)

/-- A delete through a usable client succeeds, leaves the client usable, and a
read of the key then answers `redis.Nil`. -/
def HonoursDel {σ : Type} (L : Library σ) (usable : Nat → σ → Prop) : Prop :=
  ∀ (h : Nat) (key : String) (s : σ),
    usable h s →
      (L.Del h key s).1 = none ∧ usable h (L.Del h key s).2 ∧
      (L.Get h key (L.Del h key s).2).1.2 = some GoError.redisNil

/-- A delete of a key whose read answers `redis.Nil` changes nothing. -/
def DelAbsentNoop {σ : Type} (L : Library σ) (usable : Nat → σ → Prop) : Prop :=
  ∀ (h : Nat) (key : String) (s : σ),
    usable h s → (L.Get h key s).1.2 = some GoError.redisNil → (L.Del h key s).2 = s

/-- A client is closed after `Close`, whatever `Close` returned, stays closed, and
every command on a closed client returns an error. -/
structure RejectsWhenClosed {σ : Type} (L : Library σ) (closed : Nat → σ → Prop) : Prop where
  close_closes : ∀ (h : Nat) (s : σ), closed h (L.Close h s).2
  ping_fails : ∀ (h : Nat) (s : σ), closed h s →
    (L.Ping h s).1.2 ≠ none ∧ closed h (L.Ping h s).2
  set_fails : ∀ (h : Nat) (key value : String) (expiration : Int) (s : σ), closed h s →
    (L.Set h key value expiration s).1 ≠ none ∧ closed h (L.Set h key value expiration s).2
  get_fails : ∀ (h : Nat) (key : String) (s : σ), closed h s →
    (L.Get h key s).1.2 ≠ none ∧ closed h (L.Get h key s).2
  del_fails : ∀ (h : Nat) (key : String) (s : σ), closed h s →
    (L.Del h key s).1 ≠ none ∧ closed h (L.Del h key s).2

/-! ## A reference library

An in-memory `Library`: one server with one keyspace, and the clients opened
on it. It stands in for go-redis wherever a concrete library is needed to
evaluate the package. -/

namespace Mem

/-- A client of the reference library: its options and whether `Close` was
called on it. -/
structure Conn where
  opts : Options
  closed : Bool
deriving DecidableEq, Repr

/-- The state of the reference library: whether the server answers, the
entries it holds (key, value, time to live; the clock does not move), and the
clients opened so far, a client handle being an index into them. -/
structure Server where
  reachable : Bool
  data : List (String × String × Int)
  conns : List Conn
deriving DecidableEq, Repr

/-- The error every command on the client `h` fails with, `none` when the
client is open and the server answers. -/
def Server.fault (sv : Server) (h : Nat) : Option GoError :=
  match sv.conns.get? h with
  | none => some (GoError.external "redis: client is closed")
  | some c =>
    if c.closed then some (GoError.external "redis: client is closed")
    else if sv.reachable then none
    else some (GoError.external "dial tcp 127.0.0.1:6379: connect: connection refused")

/-- The client `h` is open and the server answers. -/
def usable (h : Nat) (sv : Server) : Prop :=
  sv.fault h = none

/-- The client `h` is closed (or was never opened). -/
def closed (h : Nat) (sv : Server) : Prop :=
  sv.fault h = some (GoError.external "redis: client is closed")

/-- The entries of other keys than `key`. -/
def Server.without (sv : Server) (key : String) : List (String × String × Int) :=
  sv.data.filter (fun e => decide (e.1 ≠ key))

/-- The command `NewClient` of the reference library. -/
def NewClient (opts : Options) (sv : Server) : Nat × Server :=
  (sv.conns.length, { sv with conns := sv.conns ++ [{ opts := opts, closed := false }] })

/-- The command PING. -/
def Ping (h : Nat) (sv : Server) : (String × Option GoError) × Server :=
  match sv.fault h with
  | some err => (("", some err), sv)
  | none => (("PONG", none), sv)

/-- The command SET. -/
def Set (h : Nat) (key value : String) (expiration : Int) (sv : Server) :
    Option GoError × Server :=
  match sv.fault h with
  | some err => (some err, sv)
  | none => (none, { sv with data := (key, value, expiration) :: sv.without key })

/-- The command GET. -/
def Get (h : Nat) (key : String) (sv : Server) : (String × Option GoError) × Server :=
  match sv.fault h with
  | some err => (("", some err), sv)
  | none =>
    match sv.data.find? (fun e => decide (e.1 = key)) with
    | some e => ((e.2.1, none), sv)
    | none => (("", some GoError.redisNil), sv)

/-- The command DEL. -/
def Del (h : Nat) (key : String) (sv : Server) : Option GoError × Server :=
  match sv.fault h with
  | some err => (some err, sv)
  | none => (none, { sv with data := sv.without key })

/-- The call `Close` of the reference library: an error on a client that is closed
already, otherwise the client is marked closed. -/
def Close (h : Nat) (sv : Server) : Option GoError × Server :=
  match sv.conns.get? h with
  | none => (some (GoError.external "redis: client is closed"), sv)
  | some c =>
    if c.closed then (some (GoError.external "redis: client is closed"), sv)
    else (none, { sv with conns := sv.conns.set h { c with closed := true } })

/-- The reference library. -/
def lib : Library Server :=
  { NewClient := NewClient, Ping := Ping, Set := Set, Get := Get, Del := Del, Close := Close }

/-- A server that answers, holding nothing, with no client opened. -/
def up : Server :=
  { reachable := true, data := [], conns := [] }

/-- A server that does not answer. -/
def down : Server :=
  { reachable := false, data := [], conns := [] }

/-- A process that called `Initialize("127.0.0.1:6379", "", 0)` once, the server
answering. -/
def started : State Server :=
  Initialize lib "127.0.0.1:6379" "" 0 (State.init up)

/-- A process that called `Initialize("127.0.0.1:6379", "", 0)` once, the server
not answering. -/
def startedDown : State Server :=
  Initialize lib "127.0.0.1:6379" "" 0 (State.init down)

/-- The `RedisClient` that `Initialize` allocates first. -/
def rc0 : RedisClient :=
  { client := 0 }

end Mem

/-! ## The methods, as functions of the library's answer -/

theorem Ping_eq {σ : Type} (L : Library σ) (rc : RedisClient) (s : State σ) :
    rc.Ping L s =
      match (L.Ping rc.client s.lib).1.2 with
      | some err =>
        (some (GoError.errorString ("failed to ping Redis server: " ++ err.Error)),
          { s with lib := (L.Ping rc.client s.lib).2, calls := s.calls ++ [Call.Ping rc.client] })
      | none =>
        (none,
          { s with lib := (L.Ping rc.client s.lib).2, calls := s.calls ++ [Call.Ping rc.client],
                   stdout := s.stdout ++ ["Connected to Redis: " ++ (L.Ping rc.client s.lib).1.1] }) := by
  unfold RedisClient.Ping callPing Println
  rcases hr : (L.Ping rc.client s.lib).1 with ⟨v, _ | e⟩ <;> simp [hr]

theorem Set_eq {σ : Type} (L : Library σ) (rc : RedisClient) (key value : String)
    (expiration : Int) (s : State σ) :
    rc.Set L key value expiration s =
      (((L.Set rc.client key value expiration s.lib).1).map
          (fun err => GoError.errorString ("failed to set key '" ++ key ++ "': " ++ err.Error)),
        { s with lib := (L.Set rc.client key value expiration s.lib).2,
                 calls := s.calls ++ [Call.Set rc.client key value expiration] }) := by
  unfold RedisClient.Set callSet
  rcases hr : (L.Set rc.client key value expiration s.lib).1 with _ | e <;> simp [hr]

theorem Get_eq {σ : Type} (L : Library σ) (rc : RedisClient) (key : String) (s : State σ) :
    rc.Get L key s =
      ((match (L.Get rc.client key s.lib).1.2 with
        | some err =>
          ("", some (GoError.errorString ("failed to get key '" ++ key ++ "': " ++ err.Error)))
        | none => ((L.Get rc.client key s.lib).1.1, none)),
        { s with lib := (L.Get rc.client key s.lib).2,
                 calls := s.calls ++ [Call.Get rc.client key] }) := by
  unfold RedisClient.Get callGet
  rcases hr : (L.Get rc.client key s.lib).1 with ⟨v, _ | e⟩ <;> simp [hr]

theorem Invalidate_eq {σ : Type} (L : Library σ) (rc : RedisClient) (key : String)
    (s : State σ) :
    rc.Invalidate L key s =
      (((L.Del rc.client key s.lib).1).map
          (fun err =>
            GoError.errorString ("failed to invalidate key '" ++ key ++ "': " ++ err.Error)),
        { s with lib := (L.Del rc.client key s.lib).2,
                 calls := s.calls ++ [Call.Del rc.client key] }) := by
  unfold RedisClient.Invalidate callDel
  rcases hr : (L.Del rc.client key s.lib).1 with _ | e <;> simp [hr]

theorem Close_eq {σ : Type} (L : Library σ) (rc : RedisClient) (s : State σ) :
    rc.Close L s =
      (((L.Close rc.client s.lib).1).map
          (fun err => GoError.errorString ("failed to close Redis connection: " ++ err.Error)),
        { s with lib := (L.Close rc.client s.lib).2,
                 calls := s.calls ++ [Call.Close rc.client] }) := by
  unfold RedisClient.Close callClose
  rcases hr : (L.Close rc.client s.lib).1 with _ | e <;> simp [hr]

/-! ## Error propagation -/

/-- C6: each of `Ping`, `Set`, `Get`, `Invalidate` and `Close` returns a non-nil
error exactly when its library call returned one; it makes that library call
once and nothing else (the trace grows by that one call, the library state is
the one that call left); and when the call failed with `cause`, the error
returned is the text `failed to ping Redis server: <cause>`,
`failed to set key '<key>': <cause>`, `failed to get key '<key>': <cause>`,
`failed to invalidate key '<key>': <cause>` or
`failed to close Redis connection: <cause>`. -/
theorem error_iff_library_error {σ : Type} (L : Library σ) (rc : RedisClient)
    (key value : String) (expiration : Int) (s : State σ) :
    (((rc.Ping L s).1 ≠ none ↔ (L.Ping rc.client s.lib).1.2 ≠ none) ∧
      (rc.Ping L s).2.calls = s.calls ++ [Call.Ping rc.client] ∧
      (rc.Ping L s).2.lib = (L.Ping rc.client s.lib).2 ∧
      ∀ cause, (L.Ping rc.client s.lib).1.2 = some cause →
        (rc.Ping L s).1 =
          some (GoError.errorString ("failed to ping Redis server: " ++ cause.Error))) ∧
    (((rc.Set L key value expiration s).1 ≠ none ↔
        (L.Set rc.client key value expiration s.lib).1 ≠ none) ∧
      (rc.Set L key value expiration s).2.calls =
        s.calls ++ [Call.Set rc.client key value expiration] ∧
      (rc.Set L key value expiration s).2.lib = (L.Set rc.client key value expiration s.lib).2 ∧
      ∀ cause, (L.Set rc.client key value expiration s.lib).1 = some cause →
        (rc.Set L key value expiration s).1 =
          some (GoError.errorString ("failed to set key '" ++ key ++ "': " ++ cause.Error))) ∧
    (((rc.Get L key s).1.2 ≠ none ↔ (L.Get rc.client key s.lib).1.2 ≠ none) ∧
      (rc.Get L key s).2.calls = s.calls ++ [Call.Get rc.client key] ∧
      (rc.Get L key s).2.lib = (L.Get rc.client key s.lib).2 ∧
      ∀ cause, (L.Get rc.client key s.lib).1.2 = some cause →
        (rc.Get L key s).1.2 =
          some (GoError.errorString ("failed to get key '" ++ key ++ "': " ++ cause.Error))) ∧
    (((rc.Invalidate L key s).1 ≠ none ↔ (L.Del rc.client key s.lib).1 ≠ none) ∧
      (rc.Invalidate L key s).2.calls = s.calls ++ [Call.Del rc.client key] ∧
      (rc.Invalidate L key s).2.lib = (L.Del rc.client key s.lib).2 ∧
      ∀ cause, (L.Del rc.client key s.lib).1 = some cause →
        (rc.Invalidate L key s).1 =
          some (GoError.errorString
            ("failed to invalidate key '" ++ key ++ "': " ++ cause.Error))) ∧
    (((rc.Close L s).1 ≠ none ↔ (L.Close rc.client s.lib).1 ≠ none) ∧
      (rc.Close L s).2.calls = s.calls ++ [Call.Close rc.client] ∧
      (rc.Close L s).2.lib = (L.Close rc.client s.lib).2 ∧
      ∀ cause, (L.Close rc.client s.lib).1 = some cause →
        (rc.Close L s).1 =
          some (GoError.errorString ("failed to close Redis connection: " ++ cause.Error))) := by
  refine ⟨?_, ?_, ?_, ?_, ?_⟩
  · rw [Ping_eq]
    cases hr : (L.Ping rc.client s.lib).1.2 <;> simp
  · rw [Set_eq]
    cases hr : (L.Set rc.client key value expiration s.lib).1 <;> simp
  · rw [Get_eq]
    cases hr : (L.Get rc.client key s.lib).1.2 <;> simp
  · rw [Invalidate_eq]
    cases hr : (L.Del rc.client key s.lib).1 <;> simp
  · rw [Close_eq]
    cases hr : (L.Close rc.client s.lib).1 <;> simp

/-- C9: when the library's ping answers `pong` with no error, `Ping` returns nil
and prints the one line `Connected to Redis: <pong>`; when it fails with `cause`,
`Ping` returns `failed to ping Redis server: <cause>` and prints nothing; `Set`,
`Get`, `Invalidate` and `Close` never print, whatever the library answers. -/
theorem only_Ping_prints {σ : Type} (L : Library σ) (rc : RedisClient)
    (key value : String) (expiration : Int) (s : State σ) :
    (∀ pong, (L.Ping rc.client s.lib).1 = (pong, none) →
      (rc.Ping L s).1 = none ∧
      (rc.Ping L s).2.stdout = s.stdout ++ ["Connected to Redis: " ++ pong]) ∧
    (∀ val cause, (L.Ping rc.client s.lib).1 = (val, some cause) →
      (rc.Ping L s).1 =
        some (GoError.errorString ("failed to ping Redis server: " ++ cause.Error)) ∧
      (rc.Ping L s).2.stdout = s.stdout) ∧
    (rc.Set L key value expiration s).2.stdout = s.stdout ∧
    (rc.Get L key s).2.stdout = s.stdout ∧
    (rc.Invalidate L key s).2.stdout = s.stdout ∧
    (rc.Close L s).2.stdout = s.stdout := by
  refine ⟨?_, ?_, ?_, ?_, ?_, ?_⟩
  · intro pong hp
    rw [Ping_eq]
    simp [hp]
  · intro val cause hp
    rw [Ping_eq]
    simp [hp]
  · rw [Set_eq]
  · rw [Get_eq]
  · rw [Invalidate_eq]
  · rw [Close_eq]

/-- C3, as the code has it: whatever error `cause` the library's read returns,
`redis.Nil` for a missing key or anything else, `Get` returns the empty string
and the one wrapper `failed to get key '<key>': <cause>`; the errors returned for
two different causes are of the same kind, differ in the cause text only, and
neither is `redis.Nil`. -/
theorem Get_wraps_every_cause_alike {σ : Type} (L : Library σ) (rc : RedisClient)
    (key : String) (s s' : State σ) (cause cause' : GoError)
    (h : (L.Get rc.client key s.lib).1.2 = some cause)
    (h' : (L.Get rc.client key s'.lib).1.2 = some cause') :
    (rc.Get L key s).1 =
      ("", some (GoError.errorString ("failed to get key '" ++ key ++ "': " ++ cause.Error))) ∧
    (rc.Get L key s').1 =
      ("", some (GoError.errorString ("failed to get key '" ++ key ++ "': " ++ cause'.Error))) ∧
    ∀ e e', (rc.Get L key s).1.2 = some e → (rc.Get L key s').1.2 = some e' →
      e.kind = e'.kind ∧ e.isRedisNil = false ∧ e'.isRedisNil = false := by
  refine ⟨?_, ?_, ?_⟩
  · rw [Get_eq]
    simp [h]
  · rw [Get_eq]
    simp [h']
  · intro e e' he he'
    rw [Get_eq] at he he'
    simp only [h, h', Option.some.injEq] at he he'
    subst he
    subst he'
    exact ⟨rfl, rfl, rfl⟩

/-- C3, witness: a missing key on a server that answers, and the same key on a
server that does not. -/
theorem Get_wraps_every_cause_alike_witness :
    (Mem.lib.Get Mem.rc0.client "greeting" Mem.started.lib).1.2 = some GoError.redisNil ∧
    (Mem.lib.Get Mem.rc0.client "greeting" Mem.startedDown.lib).1.2 =
      some (GoError.external "dial tcp 127.0.0.1:6379: connect: connection refused") ∧
    (Mem.rc0.Get Mem.lib "greeting" Mem.started).1 =
      ("", some (GoError.errorString "failed to get key 'greeting': redis: nil")) ∧
    (Mem.rc0.Get Mem.lib "greeting" Mem.startedDown).1 =
      ("", some (GoError.errorString
        "failed to get key 'greeting': dial tcp 127.0.0.1:6379: connect: connection refused")) :=
  ⟨by decide, by decide,
    (Get_wraps_every_cause_alike Mem.lib Mem.rc0 "greeting" Mem.started Mem.startedDown
      GoError.redisNil
      (GoError.external "dial tcp 127.0.0.1:6379: connect: connection refused")
      (by decide) (by decide)).1,
    (Get_wraps_every_cause_alike Mem.lib Mem.rc0 "greeting" Mem.started Mem.startedDown
      GoError.redisNil
      (GoError.external "dial tcp 127.0.0.1:6379: connect: connection refused")
      (by decide) (by decide)).2.1⟩

/-- C3, as stated, fails: for the key `greeting`, the error `Get` returns when the
key is missing and the one it returns when the server cannot be reached are of
the same kind. -/
theorem Get_missing_and_transport_same_kind :
    (Mem.lib.Get Mem.rc0.client "greeting" Mem.started.lib).1.2 = some GoError.redisNil ∧
    (Mem.lib.Get Mem.rc0.client "greeting" Mem.startedDown.lib).1.2 =
      some (GoError.external "dial tcp 127.0.0.1:6379: connect: connection refused") ∧
    ¬ (∀ e e', (Mem.rc0.Get Mem.lib "greeting" Mem.started).1.2 = some e →
        (Mem.rc0.Get Mem.lib "greeting" Mem.startedDown).1.2 = some e' → e.kind ≠ e'.kind) := by
  refine ⟨by decide, by decide, ?_⟩
  intro hall
  exact hall (GoError.errorString "failed to get key 'greeting': redis: nil")
    (GoError.errorString
      "failed to get key 'greeting': dial tcp 127.0.0.1:6379: connect: connection refused")
    (by decide) (by decide) rfl

/-! ## The reference library has the assumed properties -/

theorem mem_fault_data (sv : Mem.Server) (d : List (String × String × Int)) (h : Nat) :
    Mem.Server.fault { sv with data := d } h = sv.fault h := rfl

theorem mem_honoursSetGet : HonoursSetGet Mem.lib Mem.usable := by
  intro h key value expiration s hu _
  have hu' : s.fault h = none := hu
  simp [Mem.lib, Mem.Set, Mem.Get, hu', mem_fault_data]

theorem mem_find_without (sv : Mem.Server) (key : String) :
    (sv.without key).find? (fun e => decide (e.1 = key)) = none := by
  simp [Mem.Server.without, List.find?_eq_none]

theorem mem_honoursDel : HonoursDel Mem.lib Mem.usable := by
  intro h key s hu
  have hu' : s.fault h = none := hu
  simp [Mem.lib, Mem.Del, Mem.Get, Mem.usable, hu', mem_fault_data, mem_find_without]

theorem mem_delAbsentNoop : DelAbsentNoop Mem.lib Mem.usable := by
  intro h key s hu habs
  have hu' : s.fault h = none := hu
  have hfind : s.data.find? (fun e => decide (e.1 = key)) = none := by
    cases hf : s.data.find? (fun e => decide (e.1 = key)) with
    | none => rfl
    | some e => simp [Mem.lib, Mem.Get, hu', hf] at habs
  have hsame : s.without key = s.data := by
    simp only [Mem.Server.without, List.filter_eq_self]
    intro e he
    have := (List.find?_eq_none.mp hfind) e he
    simpa using this
  simp [Mem.lib, Mem.Del, hu', hsame]

theorem mem_closed_after_Close (h : Nat) (sv : Mem.Server) : Mem.closed h (Mem.Close h sv).2 := by
  unfold Mem.closed Mem.Close Mem.Server.fault
  simp only [List.get?_eq_getElem?]
  cases hc : sv.conns[h]? with
  | none => simp [hc]
  | some c =>
    by_cases hcl : c.closed = true
    · simp [hc, hcl]
    · have hlt : h < sv.conns.length := by
        rcases List.getElem?_eq_some.mp hc with ⟨hlt, _⟩
        exact hlt
      simp [hcl, List.getElem?_set_self, hlt]

theorem mem_rejectsWhenClosed : RejectsWhenClosed Mem.lib Mem.closed where
  close_closes := mem_closed_after_Close
  ping_fails := by
    intro h s hc
    have hc' : s.fault h = some (GoError.external "redis: client is closed") := hc
    simp [Mem.lib, Mem.Ping, hc', Mem.closed]
  set_fails := by
    intro h key value expiration s hc
    have hc' : s.fault h = some (GoError.external "redis: client is closed") := hc
    simp [Mem.lib, Mem.Set, hc', Mem.closed]
  get_fails := by
    intro h key s hc
    have hc' : s.fault h = some (GoError.external "redis: client is closed") := hc
    simp [Mem.lib, Mem.Get, hc', Mem.closed]
  del_fails := by
    intro h key s hc
    have hc' : s.fault h = some (GoError.external "redis: client is closed") := hc
    simp [Mem.lib, Mem.Del, hc', Mem.closed]

/-! ## Set, Get and Invalidate over a library that honours them -/

/-- C1: over a library that honours write-then-read, on a usable client and for
every key, value and non-negative expiration, `Set` returns nil and the `Get`
that follows it returns the value with a nil error; the two library calls made
are exactly `Set` and `Get` with the key and the value as passed in. -/
theorem Set_then_Get_returns_value {σ : Type} (L : Library σ) (usable : Nat → σ → Prop)
    (hlib : HonoursSetGet L usable) (rc : RedisClient) (s : State σ)
    (key value : String) (expiration : Int)
    (hus : usable rc.client s.lib) (hexp : 0 ≤ expiration) :
    (rc.Set L key value expiration s).1 = none ∧
    (rc.Get L key (rc.Set L key value expiration s).2).1 = (value, none) ∧
    (rc.Get L key (rc.Set L key value expiration s).2).2.calls =
      s.calls ++ [Call.Set rc.client key value expiration, Call.Get rc.client key] := by
  obtain ⟨hset, hget⟩ := hlib rc.client key value expiration s.lib hus hexp
  refine ⟨?_, ?_, ?_⟩
  · rw [Set_eq]
    simp [hset]
  · rw [Get_eq, Set_eq]
    simp [hget]
  · rw [Get_eq, Set_eq]
    simp

/-- C1, witness: `Set("greeting", "hello", 0)` then `Get("greeting")` on the reference
library. -/
theorem Set_then_Get_returns_value_witness :
    HonoursSetGet Mem.lib Mem.usable ∧
    Mem.usable Mem.rc0.client Mem.started.lib ∧ (0 : Int) ≤ 0 ∧
    (Mem.rc0.Get Mem.lib "greeting" (Mem.rc0.Set Mem.lib "greeting" "hello" 0 Mem.started).2).1 =
      ("hello", none) :=
  ⟨mem_honoursSetGet, by unfold Mem.usable; decide, by decide,
    (Set_then_Get_returns_value Mem.lib Mem.usable mem_honoursSetGet Mem.rc0 Mem.started
      "greeting" "hello" 0 (by unfold Mem.usable; decide) (by decide)).2.1⟩

/-- C4: over a library that honours delete, on a usable client and for every key
(stored before or not), `Invalidate` returns nil and the `Get` that follows it
returns the empty string and the non-nil error
`failed to get key '<key>': redis: nil`. -/
theorem Invalidate_then_Get_fails {σ : Type} (L : Library σ) (usable : Nat → σ → Prop)
    (hlib : HonoursDel L usable) (rc : RedisClient) (s : State σ) (key : String)
    (hus : usable rc.client s.lib) :
    (rc.Invalidate L key s).1 = none ∧
    (rc.Get L key (rc.Invalidate L key s).2).1 =
      ("", some (GoError.errorString ("failed to get key '" ++ key ++ "': redis: nil"))) := by
  obtain ⟨hdel, -, hget⟩ := hlib rc.client key s.lib hus
  refine ⟨?_, ?_⟩
  · rw [Invalidate_eq]
    simp [hdel]
  · rw [Get_eq, Invalidate_eq]
    have htxt : "failed to get key '" ++ key ++ "': " ++ "redis: nil" =
        "failed to get key '" ++ key ++ "': redis: nil" := by
      rw [String.append_assoc ("failed to get key '" ++ key)]
      rfl
    simp [hget, GoError.Error, htxt]

/-- C4, witness: `greeting` holds `hello`; `Invalidate("greeting")` then
`Get("greeting")` on the reference library. -/
theorem Invalidate_then_Get_fails_witness :
    (Mem.rc0.Get Mem.lib "greeting"
      (Mem.rc0.Set Mem.lib "greeting" "hello" 0 Mem.started).2).1 = ("hello", none) ∧
    Mem.usable Mem.rc0.client (Mem.rc0.Set Mem.lib "greeting" "hello" 0 Mem.started).2.lib ∧
    (Mem.rc0.Get Mem.lib "greeting"
      (Mem.rc0.Invalidate Mem.lib "greeting"
        (Mem.rc0.Set Mem.lib "greeting" "hello" 0 Mem.started).2).2).1 =
      ("", some (GoError.errorString "failed to get key 'greeting': redis: nil")) :=
  ⟨by decide, by unfold Mem.usable; decide,
    (Invalidate_then_Get_fails Mem.lib Mem.usable mem_honoursDel Mem.rc0
      (Mem.rc0.Set Mem.lib "greeting" "hello" 0 Mem.started).2 "greeting"
      (by unfold Mem.usable; decide)).2⟩

/-- C5: over a library that honours delete and for which deleting a missing key
changes nothing, on a usable client: `Invalidate` of a key whose read answers
`redis.Nil` returns nil and changes nothing but the trace of calls; and for every
key, two calls of `Invalidate` in a row both return nil and the second leaves the
library as the first left it. -/
theorem Invalidate_idempotent {σ : Type} (L : Library σ) (usable : Nat → σ → Prop)
    (hdel : HonoursDel L usable) (hnoop : DelAbsentNoop L usable)
    (rc : RedisClient) (s : State σ) (key : String) (hus : usable rc.client s.lib) :
    ((L.Get rc.client key s.lib).1.2 = some GoError.redisNil →
      rc.Invalidate L key s = (none, { s with calls := s.calls ++ [Call.Del rc.client key] })) ∧
    (rc.Invalidate L key s).1 = none ∧
    (rc.Invalidate L key (rc.Invalidate L key s).2).1 = none ∧
    (rc.Invalidate L key (rc.Invalidate L key s).2).2.lib = (rc.Invalidate L key s).2.lib := by
  obtain ⟨hok, hus1, hget1⟩ := hdel rc.client key s.lib hus
  obtain ⟨hok2, -, -⟩ := hdel rc.client key (L.Del rc.client key s.lib).2 hus1
  have hsame := hnoop rc.client key (L.Del rc.client key s.lib).2 hus1 hget1
  refine ⟨?_, ?_, ?_, ?_⟩
  · intro habs
    rw [Invalidate_eq, hnoop rc.client key s.lib hus habs, hok]
    rfl
  · rw [Invalidate_eq]
    simp [hok]
  · rw [Invalidate_eq, Invalidate_eq]
    simp [hok2]
  · rw [Invalidate_eq, Invalidate_eq]
    simp [hsame]

/-- C5, witness: `Invalidate("greeting")` on the reference library, where the key
was never set. -/
theorem Invalidate_idempotent_witness :
    Mem.usable Mem.rc0.client Mem.started.lib ∧
    (Mem.lib.Get Mem.rc0.client "greeting" Mem.started.lib).1.2 = some GoError.redisNil ∧
    Mem.rc0.Invalidate Mem.lib "greeting" Mem.started =
      (none, { Mem.started with
        calls := Mem.started.calls ++ [Call.Del Mem.rc0.client "greeting"] }) :=
  ⟨by unfold Mem.usable; decide, by decide,
    (Invalidate_idempotent Mem.lib Mem.usable mem_honoursDel mem_delAbsentNoop Mem.rc0
      Mem.started "greeting" (by unfold Mem.usable; decide)).1 (by decide)⟩

/-! ## After Close -/

theorem run_closed {σ : Type} (L : Library σ) (closed : Nat → σ → Prop)
    (hlib : RejectsWhenClosed L closed) (rc : RedisClient) (op : Op) (s : State σ)
    (hc : closed rc.client s.lib) :
    (rc.run L op s).1 ≠ none ∧ closed rc.client (rc.run L op s).2.lib := by
  cases op with
  | Ping =>
    obtain ⟨hne, hcl⟩ := hlib.ping_fails rc.client s.lib hc
    simp only [RedisClient.run]
    rw [Ping_eq]
    cases hr : (L.Ping rc.client s.lib).1.2 with
    | none => exact absurd hr hne
    | some e => exact ⟨by simp, hcl⟩
  | Set key value expiration =>
    obtain ⟨hne, hcl⟩ := hlib.set_fails rc.client key value expiration s.lib hc
    simp only [RedisClient.run]
    rw [Set_eq]
    cases hr : (L.Set rc.client key value expiration s.lib).1 with
    | none => exact absurd hr hne
    | some e => exact ⟨by simp, hcl⟩
  | Get key =>
    obtain ⟨hne, hcl⟩ := hlib.get_fails rc.client key s.lib hc
    simp only [RedisClient.run]
    rw [Get_eq]
    cases hr : (L.Get rc.client key s.lib).1.2 with
    | none => exact absurd hr hne
    | some e => exact ⟨by simp, hcl⟩
  | Invalidate key =>
    obtain ⟨hne, hcl⟩ := hlib.del_fails rc.client key s.lib hc
    simp only [RedisClient.run]
    rw [Invalidate_eq]
    cases hr : (L.Del rc.client key s.lib).1 with
    | none => exact absurd hr hne
    | some e => exact ⟨by simp, hcl⟩

theorem runAll_closed {σ : Type} (L : Library σ) (closed : Nat → σ → Prop)
    (hlib : RejectsWhenClosed L closed) (rc : RedisClient) :
    ∀ (ops : List Op) (s : State σ), closed rc.client s.lib →
      (rc.runAll L ops s).1.length = ops.length ∧ ∀ r ∈ (rc.runAll L ops s).1, r ≠ none := by
  intro ops
  induction ops with
  | nil =>
    intro s _
    simp [RedisClient.runAll]
  | cons op rest ih =>
    intro s hc
    obtain ⟨hne, hcl⟩ := run_closed L closed hlib rc op s hc
    obtain ⟨hlen, hall⟩ := ih (rc.run L op s).2 hcl
    refine ⟨by simp [RedisClient.runAll, hlen], ?_⟩
    intro r hr
    simp only [RedisClient.runAll, List.mem_cons] at hr
    rcases hr with rfl | hr
    · exact hne
    · exact hall r hr

/-- C7: over a library whose closed clients reject every command, after `Close`
was called on a client (whatever `Close` returned), every call of `Ping`, `Set`,
`Get` or `Invalidate` on it, in any number and order and for every key and value,
returns a non-nil error. -/
theorem operations_fail_after_Close {σ : Type} (L : Library σ) (closed : Nat → σ → Prop)
    (hlib : RejectsWhenClosed L closed) (rc : RedisClient) (s : State σ) (ops : List Op) :
    (rc.runAll L ops (rc.Close L s).2).1.length = ops.length ∧
    ∀ r ∈ (rc.runAll L ops (rc.Close L s).2).1, r ≠ none := by
  apply runAll_closed L closed hlib rc ops
  rw [Close_eq]
  exact hlib.close_closes rc.client s.lib

/-- C7, witness: the four methods after `Close` on the reference library. -/
theorem operations_fail_after_Close_witness :
    RejectsWhenClosed Mem.lib Mem.closed ∧
    ∀ r ∈ (Mem.rc0.runAll Mem.lib
        [Op.Ping, Op.Set "greeting" "hello" 0, Op.Get "greeting", Op.Invalidate "greeting"]
        (Mem.rc0.Close Mem.lib Mem.started).2).1, r ≠ none :=
  ⟨mem_rejectsWhenClosed,
    (operations_fail_after_Close Mem.lib Mem.closed mem_rejectsWhenClosed Mem.rc0 Mem.started
      [Op.Ping, Op.Set "greeting" "hello" 0, Op.Get "greeting", Op.Invalidate "greeting"]).2⟩

/-! ## The package variable -/

theorem Initialize_eq {σ : Type} (L : Library σ) (addr password : String) (db : Int)
    (s : State σ) :
    Initialize L addr password db s =
      { lib := (L.NewClient { Addr := addr, Password := password, DB := db } s.lib).2,
        calls := s.calls ++ [Call.NewClient { Addr := addr, Password := password, DB := db }],
        stdout := s.stdout,
        heap := s.heap ++
          [{ client := (L.NewClient { Addr := addr, Password := password, DB := db } s.lib).1 }],
        redisClient := some s.heap.length,
        listeners := s.listeners + 1,
        panicked := s.panicked } := rfl

theorem exec_cons {σ : Type} (L : Library σ) (st : Step) (rest : List Step) (s : State σ) :
    (exec L (st :: rest) s).2 = (exec L rest (step L st s).2).2 := rfl

theorem exec_without_Initialize {σ : Type} (L : Library σ) :
    ∀ (steps : List Step) (s : State σ), (∀ st ∈ steps, st.isInitialize = false) →
      (exec L steps s).2 = s ∧ ∀ r ∈ (exec L steps s).1, r = s.redisClient := by
  intro steps
  induction steps with
  | nil =>
    intro s _
    simp [exec]
  | cons st rest ih =>
    intro s hno
    cases st with
    | Initialize addr password db =>
      have := hno (Step.Initialize addr password db) (List.mem_cons_self _ _)
      simp [Step.isInitialize] at this
    | NewRedisClient =>
      obtain ⟨hst, hres⟩ := ih s (fun st hst => hno st (List.mem_cons_of_mem _ hst))
      refine ⟨?_, ?_⟩
      · simpa [exec, step, NewRedisClient] using hst
      · intro r hr
        simp only [exec, step, NewRedisClient, List.singleton_append, List.mem_cons] at hr
        rcases hr with rfl | hr
        · rfl
        · exact hres r hr

theorem exec_pointer_allocated {σ : Type} (L : Library σ) :
    ∀ (steps : List Step) (s : State σ),
      (∀ i, s.redisClient = some i → i < s.heap.length) →
      ∀ i, (exec L steps s).2.redisClient = some i → i < (exec L steps s).2.heap.length := by
  intro steps
  induction steps with
  | nil =>
    intro s hs
    simpa [exec] using hs
  | cons st rest ih =>
    intro s hs
    rw [exec_cons]
    apply ih
    cases st with
    | Initialize addr password db =>
      intro i hi
      simp only [step, Initialize_eq, Option.some.injEq] at hi
      simp [step, Initialize_eq, ← hi]
    | NewRedisClient => simpa [step, NewRedisClient] using hs

theorem reach_pointer_allocated {σ : Type} (L : Library σ) (lib0 : σ) (steps : List Step) :
    ∀ i, (reach L lib0 steps).redisClient = some i → i < (reach L lib0 steps).heap.length := by
  apply exec_pointer_allocated
  intro i hi
  simp [State.init] at hi

/-- C2, as the code has it: calls of `NewRedisClient` never replace the instance
(any number of them leave the whole state as it was and all return the current
value of the package variable), and every call of `Initialize`, the first or a
later one, stores a newly allocated instance, different from the one held
before, in the package variable. -/
theorem instance_replaced_by_every_Initialize {σ : Type} (L : Library σ) (lib0 : σ)
    (steps news : List Step) (addr password : String) (db : Int) :
    ((∀ st ∈ news, st.isInitialize = false) →
      (exec L news (reach L lib0 steps)).2 = reach L lib0 steps ∧
      ∀ r ∈ (exec L news (reach L lib0 steps)).1, r = (reach L lib0 steps).redisClient) ∧
    (Initialize L addr password db (reach L lib0 steps)).redisClient =
      some (reach L lib0 steps).heap.length ∧
    (Initialize L addr password db (reach L lib0 steps)).redisClient ≠
      (reach L lib0 steps).redisClient := by
  refine ⟨exec_without_Initialize L news (reach L lib0 steps), rfl, ?_⟩
  intro heq
  have hlt := reach_pointer_allocated L lib0 steps (reach L lib0 steps).heap.length
    (by rw [← heq]; rfl)
  exact Nat.lt_irrefl _ hlt

/-- C2, as stated, fails: `Initialize`, `NewRedisClient`, `Initialize` with another
address, password and db, `NewRedisClient`: the two calls of `NewRedisClient`
return two different instances, holding two different library clients. -/
theorem second_Initialize_replaces_instance :
    (exec Mem.lib
      [Step.Initialize "127.0.0.1:6379" "" 0, Step.NewRedisClient,
        Step.Initialize "10.0.0.2:6379" "secret" 1, Step.NewRedisClient]
      (State.init Mem.up)).1 = [some 0, some 1] ∧
    (reach Mem.lib Mem.up
      [Step.Initialize "127.0.0.1:6379" "" 0, Step.NewRedisClient,
        Step.Initialize "10.0.0.2:6379" "secret" 1, Step.NewRedisClient]).heap =
      [{ client := 0 }, { client := 1 }] ∧
    ¬ (∀ p q, (exec Mem.lib
        [Step.Initialize "127.0.0.1:6379" "" 0, Step.NewRedisClient,
          Step.Initialize "10.0.0.2:6379" "secret" 1, Step.NewRedisClient]
        (State.init Mem.up)).1 = [p, q] → p = q) := by
  refine ⟨by decide, by decide, ?_⟩
  intro hall
  exact absurd (hall (some 0) (some 1) (by decide)) (by decide)

/-- C8: `NewRedisClient` returns nil as long as `Initialize` was never called;
after `Initialize(addr, password, db)` it returns the instance that call stored,
whose library client is the one `redis.NewClient` returned for exactly these three
options, and keeps returning it until the next `Initialize`; and `NewRedisClient`
returns the package variable and leaves the whole state as it was. -/
theorem NewRedisClient_returns_stored_instance {σ : Type} (L : Library σ) (lib0 : σ)
    (steps news : List Step) (addr password : String) (db : Int) (s : State σ) :
    ((∀ st ∈ steps, st.isInitialize = false) →
      (NewRedisClient (reach L lib0 steps)).1 = none) ∧
    ((Initialize L addr password db s).calls =
        s.calls ++ [Call.NewClient { Addr := addr, Password := password, DB := db }] ∧
      (Initialize L addr password db s).deref
          (NewRedisClient (Initialize L addr password db s)).1 =
        some { client :=
          (L.NewClient { Addr := addr, Password := password, DB := db } s.lib).1 }) ∧
    ((∀ st ∈ news, st.isInitialize = false) →
      (NewRedisClient (exec L news (Initialize L addr password db s)).2).1 =
        (NewRedisClient (Initialize L addr password db s)).1) ∧
    (NewRedisClient s).1 = s.redisClient ∧ (NewRedisClient s).2 = s := by
  refine ⟨?_, ⟨rfl, ?_⟩, ?_, rfl, rfl⟩
  · intro hno
    have h := (exec_without_Initialize L steps (State.init lib0) hno).1
    show (exec L steps (State.init lib0)).2.redisClient = none
    rw [h]
    rfl
  · simp [NewRedisClient, Initialize_eq, State.deref]
  · intro hno
    rw [(exec_without_Initialize L news (Initialize L addr password db s) hno).1]

/-! ## The shutdown listeners -/

theorem exec_listeners {σ : Type} (L : Library σ) :
    ∀ (steps : List Step) (s : State σ),
      (exec L steps s).2.listeners = s.listeners + steps.countP Step.isInitialize ∧
      (exec L steps s).2.panicked = s.panicked ∧
      (exec L steps s).2.calls.filter Call.isClose = s.calls.filter Call.isClose := by
  intro steps
  induction steps with
  | nil =>
    intro s
    simp [exec]
  | cons st rest ih =>
    intro s
    rw [exec_cons]
    obtain ⟨h1, h2, h3⟩ := ih (step L st s).2
    cases st with
    | Initialize addr password db =>
      refine ⟨?_, ?_, ?_⟩
      · rw [h1]
        simp [step, Initialize_eq, Step.isInitialize]
        omega
      · rw [h2]
        rfl
      · rw [h3]
        simp [step, Initialize_eq, Call.isClose]
    | NewRedisClient =>
      refine ⟨?_, ?_, ?_⟩
      · rw [h1]
        simp [step, NewRedisClient, Step.isInitialize]
      · rw [h2]
        rfl
      · rw [h3]
        rfl

theorem Error_errorString (msg : String) : (GoError.errorString msg).Error = msg := rfl

theorem shutdown_line (c : String) :
    "Error closing Redis connection: " ++ ("failed to close Redis connection: " ++ c) =
      "Error closing Redis connection: failed to close Redis connection: " ++ c := by
  rw [← String.append_assoc]
  rfl

theorem shutdownListener_eq {σ : Type} (L : Library σ) (s : State σ) (rc : RedisClient)
    (hrc : s.deref s.redisClient = some rc) :
    shutdownListener L s =
      { s with
        lib := (L.Close rc.client s.lib).2,
        calls := s.calls ++ [Call.Close rc.client],
        stdout := s.stdout ++
          match (L.Close rc.client s.lib).1 with
          | some cause =>
            ["Error closing Redis connection: failed to close Redis connection: " ++
              cause.Error]
          | none => [] } := by
  unfold shutdownListener
  rw [hrc]
  simp only [Close_eq]
  cases hr : (L.Close rc.client s.lib).1 with
  | none => simp
  | some cause => simp [Println, Error_errorString, shutdown_line]

theorem runListeners_eq {σ : Type} (L : Library σ) (rc : RedisClient) :
    ∀ (n : Nat) (s : State σ), s.deref s.redisClient = some rc →
      (runListeners L n s).calls = s.calls ++ List.replicate n (Call.Close rc.client) ∧
      (runListeners L n s).panicked = s.panicked ∧
      (runListeners L n s).listeners = s.listeners := by
  intro n
  induction n with
  | zero =>
    intro s _
    simp [runListeners]
  | succ n ih =>
    intro s hrc
    have hstep := shutdownListener_eq L s rc hrc
    have hrc' : (shutdownListener L s).deref (shutdownListener L s).redisClient = some rc := by
      rw [hstep]
      exact hrc
    obtain ⟨h1, h2, h3⟩ := ih (shutdownListener L s) hrc'
    refine ⟨?_, ?_, ?_⟩
    · simp only [runListeners]
      rw [h1, hstep]
      simp [List.replicate_succ]
    · simp only [runListeners]
      rw [h2, hstep]
    · simp only [runListeners]
      rw [h3, hstep]

theorem deliverSignal_idle {σ : Type} (L : Library σ) (s : State σ) (h : s.listeners = 0) :
    deliverSignal L s = s := by
  cases s
  simp only at h
  subst h
  rfl

/-- C10, as the code has it: every call of `Initialize` starts a listener of its
own. When a signal arrives after `Initialize` was called `n + 1` times, `Close` is
invoked `n + 1` times in total, every time on the client the last `Initialize`
created, and not before the signal; no listener runs a second time when another
signal arrives. When `Initialize` was called once, that is one `Close`, on the
client it created, and the line
`Error closing Redis connection: failed to close Redis connection: <cause>` is
printed exactly when that `Close` fails. -/
theorem one_Close_per_Initialize_on_signal {σ : Type} (L : Library σ) (lib0 : σ)
    (steps : List Step) (addr password : String) (db : Int) :
    (deliverSignal L (Initialize L addr password db (reach L lib0 steps))).calls =
      (Initialize L addr password db (reach L lib0 steps)).calls ++
        List.replicate (steps.countP Step.isInitialize + 1)
          (Call.Close
            (L.NewClient { Addr := addr, Password := password, DB := db }
              (reach L lib0 steps).lib).1) ∧
    (Initialize L addr password db (reach L lib0 steps)).calls.filter Call.isClose = [] ∧
    (deliverSignal L (Initialize L addr password db (reach L lib0 steps))).panicked = false ∧
    deliverSignal L (deliverSignal L (Initialize L addr password db (reach L lib0 steps))) =
      deliverSignal L (Initialize L addr password db (reach L lib0 steps)) ∧
    (steps.countP Step.isInitialize = 0 →
      (deliverSignal L (Initialize L addr password db (reach L lib0 steps))).stdout =
        (Initialize L addr password db (reach L lib0 steps)).stdout ++
          match (L.Close
              (L.NewClient { Addr := addr, Password := password, DB := db }
                (reach L lib0 steps).lib).1
              (Initialize L addr password db (reach L lib0 steps)).lib).1 with
          | some cause =>
            ["Error closing Redis connection: failed to close Redis connection: " ++
              cause.Error]
          | none => []) := by
  obtain ⟨hl, hp, hc⟩ := exec_listeners L steps (State.init lib0)
  have hl' : (reach L lib0 steps).listeners = steps.countP Step.isInitialize := by
    show (exec L steps (State.init lib0)).2.listeners = _
    rw [hl]
    simp [State.init]
  have hp' : (reach L lib0 steps).panicked = false := by
    show (exec L steps (State.init lib0)).2.panicked = _
    rw [hp]
    rfl
  have hc' : (reach L lib0 steps).calls.filter Call.isClose = [] := by
    show (exec L steps (State.init lib0)).2.calls.filter Call.isClose = _
    rw [hc]
    rfl
  have hderef : ∀ (k : Nat),
      State.deref { Initialize L addr password db (reach L lib0 steps) with listeners := k }
        (Initialize L addr password db (reach L lib0 steps)).redisClient =
      some { client := (L.NewClient { Addr := addr, Password := password, DB := db }
        (reach L lib0 steps).lib).1 } := by
    intro k
    simp [Initialize_eq, State.deref]
  obtain ⟨h1, h2, h3⟩ := runListeners_eq L _ (steps.countP Step.isInitialize + 1)
    { Initialize L addr password db (reach L lib0 steps) with listeners := 0 } (hderef 0)
  have hds : deliverSignal L (Initialize L addr password db (reach L lib0 steps)) =
      runListeners L (steps.countP Step.isInitialize + 1)
        { Initialize L addr password db (reach L lib0 steps) with listeners := 0 } := by
    unfold deliverSignal
    rw [Initialize_eq, hl']
  refine ⟨?_, ?_, ?_, ?_, ?_⟩
  · rw [hds, h1]
  · rw [Initialize_eq]
    simp [hc', Call.isClose]
  · rw [hds, h2]
    exact hp'
  · apply deliverSignal_idle
    rw [hds, h3]
  · intro hzero
    rw [hds, hzero]
    simp only [runListeners, Nat.zero_add]
    rw [shutdownListener_eq L _ _ (hderef 0)]

/-- C10, as stated, fails: after two calls of `Initialize` a signal makes two
listeners run, `Close` is invoked twice, both times on the second client, and
the first client stays open. -/
theorem two_Initialize_two_Close :
    (deliverSignal Mem.lib
      (Initialize Mem.lib "10.0.0.2:6379" "secret" 1 Mem.started)).calls =
      [Call.NewClient { Addr := "127.0.0.1:6379", Password := "", DB := 0 },
        Call.NewClient { Addr := "10.0.0.2:6379", Password := "secret", DB := 1 },
        Call.Close 1, Call.Close 1] ∧
    ((deliverSignal Mem.lib
      (Initialize Mem.lib "10.0.0.2:6379" "secret" 1 Mem.started)).calls.filter
        Call.isClose).length ≠ 1 ∧
    (deliverSignal Mem.lib
      (Initialize Mem.lib "10.0.0.2:6379" "secret" 1 Mem.started)).lib.conns.map
        (fun c => c.closed) = [false, true] := by
  refine ⟨by decide, by decide, by decide⟩

end RedisUtil
